import Mathlib

/-!
Shallow embedding of the ns-3 C ABI shim
(src/adapter/native/src/ns3shim.cpp, declarations in
src/adapter/native/include/ns3shim.h) and verification of its
natural-language specification.

Modelling conventions:
* The per-simulation context `ns3_sim_t` (ns3shim.cpp lines 42-74) is the
  record `SimState`. The four registries `std::map<uint64_t, Ptr<T>>` are
  modelled by the lists of registered IDs in insertion order; the mapped
  `Ptr` values carry no information the claims need, except for the concrete
  device class, which is kept as a `DevKind` tag so that the
  `GetObject<PointToPointNetDevice>` cast in `trace_subscribe_packet_events`
  can be decided.
* Pointer-valued ABI arguments are flattened to `Bool` null flags
  (`true` means the caller passed NULL). Handle arguments are the raw
  64-bit IDs they encode (`HandleToId` / `IdTo*Handle` are bit-casts,
  lines 83-92), as `Nat`; the value 0 plays the role of the NULL handle.
* Every call into the underlying simulator that can throw gets an oracle
  `throws : Option String`: `some msg` means the call threw a
  `std::exception` whose `what()` message is `msg`; `none` means it
  returned normally.
* The null-pointer dereference that is reachable in
  `trace_subscribe_packet_events` is a distinguished outcome
  `StepResult.undef`; it is not an outcome of the `catch (std::exception)`
  handler, which only ever produces `StepResult.err`.
* Simulation times (`double` seconds) are modelled as rationals: the
  claims about `flowmon_collect` concern which per-flow fields are summed
  into which output fields, not floating-point rounding.
* Error strings are ASCII, so `String` length and byte length coincide.
-/

/-- Status models the `ns3_status` enum: `NS3_OK = 0`, `NS3_ERR = -1`
(ns3shim.h lines 55-58). -/
inductive Status
  | ok
  | err
  deriving DecidableEq, Repr

/-- DevKind records which concrete NetDevice subclass a registered device
handle refers to (which installer registered it). -/
inductive DevKind
  | p2p
  | csma
  | wifi
  deriving DecidableEq, Repr

/-- SimState is the per-simulation context `ns3_sim_t`
(ns3shim.cpp lines 42-74): four registries, four ID counters, the
last-error slot and the running flag. -/
structure SimState where
  nodes : List Nat
  devices : List (Nat × DevKind)
  apps : List Nat
  flowMons : List Nat
  nextNodeId : Nat
  nextDeviceId : Nat
  nextAppId : Nat
  nextFlowMonId : Nat
  lastError : String
  isRunning : Bool
  deriving DecidableEq, Repr

/-- initState is the context `sim_create` allocates (lines 169-178 and the
member initializers at lines 42-62): empty registries, all counters at 1,
empty error slot, running flag false. -/
def initState : SimState :=
  { nodes := [], devices := [], apps := [], flowMons := [],
    nextNodeId := 1, nextDeviceId := 1, nextAppId := 1, nextFlowMonId := 1,
    lastError := "", isRunning := false }

/-- SetError models `ns3_sim_t::SetError` (lines 65-68): an unconditional
overwrite of the last-error slot (the mutex only serialises the write). -/
def SimState.SetError (s : SimState) (msg : String) : SimState :=
  { s with lastError := msg }

/-- GetNode models the lookup helper at lines 100-108: a NULL handle misses
silently; a non-NULL handle absent from the registry writes
"Invalid node handle" into the slot and misses; otherwise it hits. -/
def GetNode (s : SimState) (node : Nat) : SimState × Bool :=
  if node = 0 then (s, false)
  else if node ∈ s.nodes then (s, true)
  else (s.SetError "Invalid node handle", false)

/-- GetDevice models lines 110-118; a hit also yields the device class held
in the registry. -/
def GetDevice (s : SimState) (dev : Nat) : SimState × Option DevKind :=
  if dev = 0 then (s, none)
  else
    match s.devices.lookup dev with
    | some k => (s, some k)
    | none => (s.SetError "Invalid device handle", none)

/-- GetApp models lines 120-128. -/
def GetApp (s : SimState) (app : Nat) : SimState × Bool :=
  if app = 0 then (s, false)
  else if app ∈ s.apps then (s, true)
  else (s.SetError "Invalid application handle", false)

/-- GetFlowMon models lines 130-138. -/
def GetFlowMon (s : SimState) (fm : Nat) : SimState × Bool :=
  if fm = 0 then (s, false)
  else if fm ∈ s.flowMons then (s, true)
  else (s.SetError "Invalid flow monitor handle", false)

/-- resolveNodes is the handle-resolution loop of `internet_install`,
`csma_install` and `wifi_install_sta_ap` (for example lines 295-300): it
resolves each handle in order and returns NS3_ERR at the first miss. -/
def resolveNodes (s : SimState) : List Nat → SimState × Bool
  | [] => (s, true)
  | h :: rest =>
    match GetNode s h with
    | (s1, true) => resolveNodes s1 rest
    | (s1, false) => (s1, false)

/-- resolveDevices is the device-resolution loop of `ipv4_assign`
(lines 488-492). -/
def resolveDevices (s : SimState) : List Nat → SimState × Bool
  | [] => (s, true)
  | h :: rest =>
    match GetDevice s h with
    | (s1, some _) => resolveDevices s1 rest
    | (s1, none) => (s1, false)

/-- lastErrorMsg is the string selected at line 157:
`sim ? sim->GetError() : "No simulation context"`. -/
def lastErrorMsg (sim : Option SimState) : String :=
  match sim with
  | some s => s.lastError
  | none => "No simulation context"

/-- ns3_last_error models lines 154-163. The output buffer contents are the
String actually written (the NUL terminator is implicit in the model); the
truncation `min(msg.size(), len - 1)` is `String.take (len - 1)` on the
ASCII messages involved. `none` for `sim` models a NULL simulation pointer,
`bufNull` a NULL output buffer. -/
def ns3_last_error (sim : Option SimState) (bufNull : Bool) (len : Nat) :
    Status × Option String :=
  if bufNull ∨ len = 0 then (Status.err, none)
  else (Status.ok, some ((lastErrorMsg sim).take (len - 1)))

/-- sim_run models lines 192-205. The returned Bool is the value of the
running flag while `Simulator::Run()` drains the event queue (line 197
executes between the `isRunning = true` and `isRunning = false`
assignments). On a throw, the flag is cleared, the slot receives
"sim_run failed: " ++ what, and NS3_ERR is returned. -/
def sim_run (throws : Option String) (s : SimState) : Status × SimState × Bool :=
  let s1 : SimState := { s with isRunning := true }
  match throws with
  | none => (Status.ok, { s1 with isRunning := false }, s1.isRunning)
  | some m =>
      (Status.err,
       ({ s1 with isRunning := false }).SetError ("sim_run failed: " ++ m),
       s1.isRunning)

/-- sim_is_running models lines 219-224: with a valid output slot it writes
1 or 0 reflecting the current flag and returns NS3_OK. -/
def sim_is_running (s : SimState) (outNull : Bool) : Status × Option Nat :=
  if outNull then (Status.err, none)
  else (Status.ok, some (if s.isRunning then 1 else 0))

/-- sim_destroy models lines 252-265. `teardown` is the behaviour of
`Simulator::Destroy()` (`Except.error` = it threw). The result type is
`Except`: a returned `Except.error` would mean an exception escaped
`sim_destroy` itself; the `catch (...)` at line 260 converts every throw
into a plain NS3_ERR return, and `delete sim` runs on both paths, recorded
by the Bool (deallocation attempted). -/
def sim_destroy (sim : Option SimState) (teardown : Except String Unit) :
    Except String (Status × Bool) :=
  match sim with
  | none => Except.ok (Status.ok, false)
  | some _ =>
    match teardown with
    | Except.ok _ => Except.ok (Status.ok, true)
    | Except.error _ => Except.ok (Status.err, true)

/-- WifiStandard enumerates the `WIFI_STANDARD_*` constants that
`wifi_install_sta_ap` can select. -/
inductive WifiStandard
  | s80211a
  | s80211b
  | s80211g
  | s80211n
  | s80211ac
  deriving DecidableEq, Repr

/-- wifiStandardOf is the standard-selection switch of
`wifi_install_sta_ap` (lines 406-414): codes 3 and 4 both select 802.11n
and the default branch also selects 802.11n. -/
def wifiStandardOf (phyStandard : Int) : WifiStandard :=
  if phyStandard = 0 then WifiStandard.s80211a
  else if phyStandard = 1 then WifiStandard.s80211b
  else if phyStandard = 2 then WifiStandard.s80211g
  else if phyStandard = 3 then WifiStandard.s80211n
  else if phyStandard = 4 then WifiStandard.s80211n
  else if phyStandard = 5 then WifiStandard.s80211ac
  else WifiStandard.s80211n

/-- FlowStats is one entry of `monitor->GetFlowStats()` restricted to the
fields `flowmon_collect` reads (lines 693-700); `delaySum` and `jitterSum`
are the `GetSeconds()` values of the per-flow time sums. -/
structure FlowStats where
  txPackets : Nat
  rxPackets : Nat
  txBytes : Nat
  rxBytes : Nat
  delaySum : ℚ
  jitterSum : ℚ
  deriving DecidableEq, Repr

/-- FlowAgg is the output struct `ns3_flow_stats` (ns3shim.h lines 320-328). -/
structure FlowAgg where
  txPackets : Nat
  rxPackets : Nat
  txBytes : Nat
  rxBytes : Nat
  delaySumSec : ℚ
  jitterSumSec : ℚ
  flowCount : Nat
  deriving DecidableEq, Repr

/-- FlowAcc is the local accumulator block of `flowmon_collect`
(lines 689-691). -/
structure FlowAcc where
  txPackets : Nat
  rxPackets : Nat
  txBytes : Nat
  rxBytes : Nat
  delaySum : ℚ
  jitterSum : ℚ
  deriving DecidableEq, Repr

/-- flowmonLoop is the accumulation loop of `flowmon_collect`
(lines 693-700). Line 698 adds the flow's `delaySum` and line 699 adds the
flow's `jitterSum` into the same `delaySum` accumulator; the `jitterSum`
accumulator is never updated by the loop. -/
def flowmonLoop (acc : FlowAcc) : List FlowStats → FlowAcc
  | [] => acc
  | f :: rest =>
      flowmonLoop
        { txPackets := acc.txPackets + f.txPackets,
          rxPackets := acc.rxPackets + f.rxPackets,
          txBytes := acc.txBytes + f.txBytes,
          rxBytes := acc.rxBytes + f.rxBytes,
          delaySum := acc.delaySum + f.delaySum + f.jitterSum,
          jitterSum := acc.jitterSum } rest

/-- flowmon_collect_stats is the success path of `flowmon_collect`
(lines 687-708) restricted to the aggregation written into `outStats`. -/
def flowmon_collect_stats (flows : List FlowStats) : FlowAgg :=
  let acc := flowmonLoop
    { txPackets := 0, rxPackets := 0, txBytes := 0, rxBytes := 0,
      delaySum := 0, jitterSum := 0 } flows
  { txPackets := acc.txPackets, rxPackets := acc.rxPackets,
    txBytes := acc.txBytes, rxBytes := acc.rxBytes,
    delaySumSec := acc.delaySum, jitterSumSec := acc.jitterSum,
    flowCount := flows.length }

/-- spec_flow_aggregate is the aggregation as the specification words it:
each output field sums exactly the per-flow field of the same name, with
`delaySumSec` aggregating only per-flow `delaySum` and `jitterSumSec`
aggregating only per-flow `jitterSum`. It exists solely to be compared
with `flowmon_collect_stats`, which is translated from the source. -/
def spec_flow_aggregate (flows : List FlowStats) : FlowAgg :=
  { txPackets := (flows.map FlowStats.txPackets).sum,
    rxPackets := (flows.map FlowStats.rxPackets).sum,
    txBytes := (flows.map FlowStats.txBytes).sum,
    rxBytes := (flows.map FlowStats.rxBytes).sum,
    delaySumSec := (flows.map FlowStats.delaySum).sum,
    jitterSumSec := (flows.map FlowStats.jitterSum).sum,
    flowCount := flows.length }

/-- AttrVal is the tagged union `ns3_attr` (ns3shim.h lines 95-103):
`kind` is the raw integer tag as received across the ABI (0 bool, 1 uint,
2 double, 3 string), `sNull` records whether the string payload pointer is
NULL (only inspected by the string case). The numeric payloads do not
influence control flow and are omitted. -/
structure AttrVal where
  kind : Int
  sNull : Bool
  deriving DecidableEq, Repr

/-- Op enumerates the ABI entry points that act on a live simulation
context, with pointer arguments flattened to null flags, handle arguments
to raw IDs, caller arrays to lists, and one throws oracle per call for the
underlying ns-3 invocations. -/
inductive Op
  | nodes_create (count : Nat) (outNull : Bool) (throws : Option String)
  | internet_install (hs : List Nat) (arrNull : Bool) (throws : Option String)
  | p2p_install (a b : Nat) (argNull : Bool) (throws : Option String)
  | csma_install (hs : List Nat) (argNull : Bool) (throws : Option String)
  | wifi_install_sta_ap (stas : List Nat) (ap : Nat) (phyStandard : Int)
      (argNull : Bool) (throws : Option String)
  | mobility_set_constant_position (node : Nat) (throws : Option String)
  | ipv4_assign (devs : List Nat) (argNull : Bool) (throws : Option String)
  | ipv4_populate_routing_tables (throws : Option String)
  | app_udpecho_server (node : Nat) (outNull : Bool) (throws : Option String)
  | app_udpecho_client (node : Nat) (argNull : Bool) (throws : Option String)
  | app_start (app : Nat) (throws : Option String)
  | app_stop (app : Nat) (throws : Option String)
  | trace_subscribe_packet_events (dev : Nat) (onTx onRx : Bool) (throws : Option String)
  | pcap_enable (dev : Nat) (argNull : Bool) (throws : Option String)
  | flowmon_install_all (outNull : Bool) (throws : Option String)
  | flowmon_collect (fm : Nat) (outNull : Bool) (throws : Option String)
  | config_set (pathNull attrNull : Bool) (v : AttrVal) (throws : Option String)
  | sim_set_seed (throws : Option String)
  | sim_run (throws : Option String)
  | sim_stop (throws : Option String)
  | sim_now (outNull : Bool) (throws : Option String)
  | sim_schedule (cbNull : Bool) (throws : Option String)
  | sim_is_running (outNull : Bool)
  deriving DecidableEq, Repr

/-- Issued lists the registry IDs a call hands out, per entity kind, in the
order the `next*Id++` increments happen. -/
structure Issued where
  nodeIds : List Nat
  devIds : List Nat
  appIds : List Nat
  fmIds : List Nat
  deriving DecidableEq, Repr

/-- Issued.nil is the empty issuance. -/
def Issued.nil : Issued := ⟨[], [], [], []⟩

/-- Issued.append concatenates issuances of successive calls. -/
def Issued.append (a b : Issued) : Issued :=
  ⟨a.nodeIds ++ b.nodeIds, a.devIds ++ b.devIds,
    a.appIds ++ b.appIds, a.fmIds ++ b.fmIds⟩

/-- StepResult is the observable outcome of one ABI call: NS3_OK with the
post-state and the IDs issued, NS3_ERR with the post-state, or undefined
behaviour (the reachable null-pointer dereference, which no catch block
turns into a status). -/
inductive StepResult
  | ok (s : SimState) (iss : Issued)
  | err (s : SimState)
  | undef
  deriving DecidableEq, Repr

/-- step executes one ABI call on a live simulation context, translated
case by case from ns3shim.cpp. `List.range' c n` is the list of IDs the
`id = next*Id++` loop hands out starting from counter value `c`.
In `wifi_install_sta_ap` the selected standard (`wifiStandardOf`) only
configures the WifiHelper and never influences the context state or the
returned status. -/
def step (op : Op) (s : SimState) : StepResult :=
  match op with
  | .nodes_create count outNull throws =>
      if outNull ∨ count = 0 then .err s
      else
        match throws with
        | some m => .err (s.SetError ("nodes_create failed: " ++ m))
        | none =>
            let ids := List.range' s.nextNodeId count
            .ok { s with nodes := s.nodes ++ ids,
                         nextNodeId := s.nextNodeId + count }
               ⟨ids, [], [], []⟩
  | .internet_install hs arrNull throws =>
      if arrNull ∨ hs = [] then .err s
      else
        match resolveNodes s hs with
        | (s1, false) => .err s1
        | (s1, true) =>
            match throws with
            | some m => .err (s1.SetError ("internet_install failed: " ++ m))
            | none => .ok s1 Issued.nil
  | .p2p_install a b argNull throws =>
      if argNull ∨ a = 0 ∨ b = 0 then .err s
      else
        let r1 := GetNode s a
        let r2 := GetNode r1.1 b
        if r1.2 && r2.2 then
          match throws with
          | some m => .err (r2.1.SetError ("p2p_install failed: " ++ m))
          | none =>
              let idA := r2.1.nextDeviceId
              .ok { r2.1 with
                    devices := r2.1.devices ++ [(idA, DevKind.p2p), (idA + 1, DevKind.p2p)],
                    nextDeviceId := r2.1.nextDeviceId + 2 }
                 ⟨[], [idA, idA + 1], [], []⟩
        else .err r2.1
  | .csma_install hs argNull throws =>
      if argNull ∨ hs = [] then .err s
      else
        match resolveNodes s hs with
        | (s1, false) => .err s1
        | (s1, true) =>
            match throws with
            | some m => .err (s1.SetError ("csma_install failed: " ++ m))
            | none =>
                let ids := List.range' s1.nextDeviceId hs.length
                .ok { s1 with
                      devices := s1.devices ++ ids.map (fun i => (i, DevKind.csma)),
                      nextDeviceId := s1.nextDeviceId + hs.length }
                   ⟨[], ids, [], []⟩
  | .wifi_install_sta_ap stas ap _phyStandard argNull throws =>
      if argNull ∨ stas = [] ∨ ap = 0 then .err s
      else
        match resolveNodes s stas with
        | (s1, false) => .err s1
        | (s1, true) =>
            match GetNode s1 ap with
            | (s2, false) => .err s2
            | (s2, true) =>
                match throws with
                | some m => .err (s2.SetError ("wifi_install_sta_ap failed: " ++ m))
                | none =>
                    let staIds := List.range' s2.nextDeviceId stas.length
                    let apId := s2.nextDeviceId + stas.length
                    .ok { s2 with
                          devices := s2.devices
                            ++ staIds.map (fun i => (i, DevKind.wifi))
                            ++ [(apId, DevKind.wifi)],
                          nextDeviceId := s2.nextDeviceId + stas.length + 1 }
                       ⟨[], staIds ++ [apId], [], []⟩
  | .mobility_set_constant_position node throws =>
      if node = 0 then .err s
      else
        match GetNode s node with
        | (s1, false) => .err s1
        | (s1, true) =>
            match throws with
            | some m => .err (s1.SetError ("mobility_set_constant_position failed: " ++ m))
            | none => .ok s1 Issued.nil
  | .ipv4_assign devs argNull throws =>
      if argNull ∨ devs = [] then .err s
      else
        match resolveDevices s devs with
        | (s1, false) => .err s1
        | (s1, true) =>
            match throws with
            | some m => .err (s1.SetError ("ipv4_assign failed: " ++ m))
            | none => .ok s1 Issued.nil
  | .ipv4_populate_routing_tables throws =>
      match throws with
      | some m => .err (s.SetError ("ipv4_populate_routing_tables failed: " ++ m))
      | none => .ok s Issued.nil
  | .app_udpecho_server node outNull throws =>
      if node = 0 ∨ outNull then .err s
      else
        match GetNode s node with
        | (s1, false) => .err s1
        | (s1, true) =>
            match throws with
            | some m => .err (s1.SetError ("app_udpecho_server failed: " ++ m))
            | none =>
                let id := s1.nextAppId
                .ok { s1 with apps := s1.apps ++ [id], nextAppId := s1.nextAppId + 1 }
                   ⟨[], [], [id], []⟩
  | .app_udpecho_client node argNull throws =>
      if node = 0 ∨ argNull then .err s
      else
        match GetNode s node with
        | (s1, false) => .err s1
        | (s1, true) =>
            match throws with
            | some m => .err (s1.SetError ("app_udpecho_client failed: " ++ m))
            | none =>
                let id := s1.nextAppId
                .ok { s1 with apps := s1.apps ++ [id], nextAppId := s1.nextAppId + 1 }
                   ⟨[], [], [id], []⟩
  | .app_start app throws =>
      if app = 0 then .err s
      else
        match GetApp s app with
        | (s1, false) => .err s1
        | (s1, true) =>
            match throws with
            | some m => .err (s1.SetError ("app_start failed: " ++ m))
            | none => .ok s1 Issued.nil
  | .app_stop app throws =>
      if app = 0 then .err s
      else
        match GetApp s app with
        | (s1, false) => .err s1
        | (s1, true) =>
            match throws with
            | some m => .err (s1.SetError ("app_stop failed: " ++ m))
            | none => .ok s1 Issued.nil
  | .trace_subscribe_packet_events dev onTx onRx throws =>
      if dev = 0 then .err s
      else
        match GetDevice s dev with
        | (s1, none) => .err s1
        | (s1, some kind) =>
            if onTx || onRx then
              if kind = DevKind.p2p then
                match throws with
                | some m =>
                    .err (s1.SetError ("trace_subscribe_packet_events failed: " ++ m))
                | none => .ok s1 Issued.nil
              else
                .undef
            else .ok s1 Issued.nil
  | .pcap_enable dev argNull throws =>
      if dev = 0 ∨ argNull then .err s
      else
        match GetDevice s dev with
        | (s1, none) => .err s1
        | (s1, some _) =>
            match throws with
            | some m => .err (s1.SetError ("pcap_enable failed: " ++ m))
            | none => .ok s1 Issued.nil
  | .flowmon_install_all outNull throws =>
      if outNull then .err s
      else
        match throws with
        | some m => .err (s.SetError ("flowmon_install_all failed: " ++ m))
        | none =>
            let id := s.nextFlowMonId
            .ok { s with flowMons := s.flowMons ++ [id],
                         nextFlowMonId := s.nextFlowMonId + 1 }
               ⟨[], [], [], [id]⟩
  | .flowmon_collect fm outNull throws =>
      if fm = 0 ∨ outNull then .err s
      else
        match GetFlowMon s fm with
        | (s1, false) => .err s1
        | (s1, true) =>
            match throws with
            | some m => .err (s1.SetError ("flowmon_collect failed: " ++ m))
            | none => .ok s1 Issued.nil
  | .config_set pathNull attrNull v throws =>
      if pathNull ∨ attrNull then .err s
      else if v.kind = 0 ∨ v.kind = 1 ∨ v.kind = 2 then
        match throws with
        | some m => .err (s.SetError ("config_set failed: " ++ m))
        | none => .ok s Issued.nil
      else if v.kind = 3 then
        if v.sNull then .err s
        else
          match throws with
          | some m => .err (s.SetError ("config_set failed: " ++ m))
          | none => .ok s Issued.nil
      else .err (s.SetError "Invalid attribute kind")
  | .sim_set_seed throws =>
      match throws with
      | some m => .err (s.SetError ("sim_set_seed failed: " ++ m))
      | none => .ok s Issued.nil
  | .sim_run throws =>
      match sim_run throws s with
      | (Status.ok, s1, _) => .ok s1 Issued.nil
      | (Status.err, s1, _) => .err s1
  | .sim_stop throws =>
      match throws with
      | some m => .err (s.SetError ("sim_stop failed: " ++ m))
      | none => .ok s Issued.nil
  | .sim_now outNull throws =>
      if outNull then .err s
      else
        match throws with
        | some m => .err (s.SetError ("sim_now failed: " ++ m))
        | none => .ok s Issued.nil
  | .sim_schedule cbNull throws =>
      if cbNull then .err s
      else
        match throws with
        | some m => .err (s.SetError ("sim_schedule failed: " ++ m))
        | none => .ok s Issued.nil
  | .sim_is_running outNull =>
      match sim_is_running s outNull with
      | (Status.ok, _) => .ok s Issued.nil
      | (Status.err, _) => .err s

/-- stepPost projects the post-state of a call (for undefined behaviour no
post-state exists; the pre-state is returned so the projection is total). -/
def stepPost (op : Op) (s : SimState) : SimState :=
  match step op s with
  | .ok s1 _ => s1
  | .err s1 => s1
  | .undef => s

/-- runOk executes a sequence of calls and returns the final state when
every call returned NS3_OK, and `none` otherwise. -/
def runOk : List Op → SimState → Option SimState
  | [], s => some s
  | op :: rest, s =>
      match step op s with
      | .ok s1 _ => runOk rest s1
      | _ => none

/-- runTrace executes a sequence of calls, accumulating the issued IDs of
the successful ones (failed calls issue nothing); it stops at undefined
behaviour. -/
def runTrace : List Op → SimState → SimState × Issued
  | [], s => (s, Issued.nil)
  | op :: rest, s =>
      match step op s with
      | .ok s1 iss =>
          let r := runTrace rest s1
          (r.1, Issued.append iss r.2)
      | .err s1 => runTrace rest s1
      | .undef => (s, Issued.nil)

/-- priorState is a context whose slot holds the message of an earlier
failed call. -/
def priorState : SimState := { initState with lastError := "prior failure" }

/-- errState is a context whose slot holds a four-byte message, used to
exhibit truncation in `ns3_last_error`. -/
def errState : SimState := { initState with lastError := "boom" }

/-- s1demo is a first simulation on which `nodes_create(2)` issued the node
handles 1 and 2. -/
def s1demo : SimState := stepPost (Op.nodes_create 2 false none) initState

/-- s2demo is a second, distinct simulation on which `nodes_create(1)`
issued only the node handle 1. -/
def s2demo : SimState := stepPost (Op.nodes_create 1 false none) initState

/-- csmaState is a context holding two CSMA devices (IDs 1 and 2)
registered by `csma_install` on two freshly created nodes. -/
def csmaState : SimState :=
  stepPost (Op.csma_install [1, 2] false none)
    (stepPost (Op.nodes_create 2 false none) initState)

/-- c8FinalState is the state reached from `priorState` by a successful
`nodes_create(1)` followed by a successful `internet_install` on that node. -/
def c8FinalState : SimState := { priorState with nodes := [1], nextNodeId := 2 }

/-- c1Flow is the failing input for the flow-statistics claim: a single
classified flow whose delay sum is 0 seconds and whose jitter sum is
1 second. -/
def c1Flow : FlowStats :=
  { txPackets := 0, rxPackets := 0, txBytes := 0, rxBytes := 0,
    delaySum := 0, jitterSum := 1 }

/-- IssuedFresh says an issued-ID list is exactly the contiguous block
starting at 1, hence strictly increasing, 0-free, duplicate-free, and
starting at 1 when non-empty. -/
def IssuedFresh (l : List Nat) : Prop :=
  l = List.range' 1 l.length
  ∧ List.Pairwise (· < ·) l
  ∧ 0 ∉ l
  ∧ l.Nodup
  ∧ (l ≠ [] → l.head? = some 1)

/-- StepInv packages what a single call guarantees about ID issuance, the
error slot and the running flag: a successful call issues, for each entity
kind, exactly the next block of counter values and advances the counter by
that amount, leaves the slot untouched, and leaves a cleared running flag
cleared; a failed call leaves the counters and a cleared running flag
untouched. -/
def StepInv (s : SimState) : StepResult → Prop
  | .ok s1 iss =>
      iss.nodeIds = List.range' s.nextNodeId iss.nodeIds.length
      ∧ s1.nextNodeId = s.nextNodeId + iss.nodeIds.length
      ∧ iss.devIds = List.range' s.nextDeviceId iss.devIds.length
      ∧ s1.nextDeviceId = s.nextDeviceId + iss.devIds.length
      ∧ iss.appIds = List.range' s.nextAppId iss.appIds.length
      ∧ s1.nextAppId = s.nextAppId + iss.appIds.length
      ∧ iss.fmIds = List.range' s.nextFlowMonId iss.fmIds.length
      ∧ s1.nextFlowMonId = s.nextFlowMonId + iss.fmIds.length
      ∧ s1.lastError = s.lastError
      ∧ (s.isRunning = false → s1.isRunning = false)
  | .err s1 =>
      s1.nextNodeId = s.nextNodeId
      ∧ s1.nextDeviceId = s.nextDeviceId
      ∧ s1.nextAppId = s.nextAppId
      ∧ s1.nextFlowMonId = s.nextFlowMonId
      ∧ (s.isRunning = false → s1.isRunning = false)
  | .undef => True

/-- EqU says two contexts agree on every field except possibly the
last-error slot (the only field the lookup helpers may write). -/
def EqU (s t : SimState) : Prop :=
  t.nodes = s.nodes ∧ t.devices = s.devices ∧ t.apps = s.apps
  ∧ t.flowMons = s.flowMons
  ∧ t.nextNodeId = s.nextNodeId ∧ t.nextDeviceId = s.nextDeviceId
  ∧ t.nextAppId = s.nextAppId ∧ t.nextFlowMonId = s.nextFlowMonId
  ∧ t.isRunning = s.isRunning

theorem eqU_refl (s : SimState) : EqU s s := by
  unfold EqU; tauto

theorem eqU_trans {s t u : SimState} (h1 : EqU s t) (h2 : EqU t u) : EqU s u := by
  unfold EqU at *
  obtain ⟨a1, a2, a3, a4, a5, a6, a7, a8, a9⟩ := h1
  obtain ⟨b1, b2, b3, b4, b5, b6, b7, b8, b9⟩ := h2
  exact ⟨b1.trans a1, b2.trans a2, b3.trans a3, b4.trans a4, b5.trans a5,
         b6.trans a6, b7.trans a7, b8.trans a8, b9.trans a9⟩

theorem eqU_SetError (s : SimState) (m : String) : EqU s (s.SetError m) := by
  unfold EqU SimState.SetError; tauto

theorem GetNode_eqU {s s1 : SimState} {h : Nat} {b : Bool}
    (he : GetNode s h = (s1, b)) : EqU s s1 := by
  unfold GetNode at he
  split at he
  · cases he; exact eqU_refl s
  · split at he
    · cases he; exact eqU_refl s
    · cases he; exact eqU_SetError s _

theorem GetNode_true {s s1 : SimState} {h : Nat}
    (he : GetNode s h = (s1, true)) : s1 = s := by
  unfold GetNode at he
  split at he
  · simp at he
  · split at he
    · cases he; rfl
    · simp at he

theorem GetDevice_eqU {s s1 : SimState} {h : Nat} {r : Option DevKind}
    (he : GetDevice s h = (s1, r)) : EqU s s1 := by
  unfold GetDevice at he
  split at he
  · cases he; exact eqU_refl s
  · split at he
    · cases he; exact eqU_refl s
    · cases he; exact eqU_SetError s _

theorem GetDevice_some {s s1 : SimState} {h : Nat} {k : DevKind}
    (he : GetDevice s h = (s1, some k)) : s1 = s := by
  unfold GetDevice at he
  split at he
  · simp at he
  · split at he
    · cases he; rfl
    · simp at he

theorem GetApp_eqU {s s1 : SimState} {h : Nat} {b : Bool}
    (he : GetApp s h = (s1, b)) : EqU s s1 := by
  unfold GetApp at he
  split at he
  · cases he; exact eqU_refl s
  · split at he
    · cases he; exact eqU_refl s
    · cases he; exact eqU_SetError s _

theorem GetApp_true {s s1 : SimState} {h : Nat}
    (he : GetApp s h = (s1, true)) : s1 = s := by
  unfold GetApp at he
  split at he
  · simp at he
  · split at he
    · cases he; rfl
    · simp at he

theorem GetFlowMon_eqU {s s1 : SimState} {h : Nat} {b : Bool}
    (he : GetFlowMon s h = (s1, b)) : EqU s s1 := by
  unfold GetFlowMon at he
  split at he
  · cases he; exact eqU_refl s
  · split at he
    · cases he; exact eqU_refl s
    · cases he; exact eqU_SetError s _

theorem GetFlowMon_true {s s1 : SimState} {h : Nat}
    (he : GetFlowMon s h = (s1, true)) : s1 = s := by
  unfold GetFlowMon at he
  split at he
  · simp at he
  · split at he
    · cases he; rfl
    · simp at he

theorem resolveNodes_eqU {hs : List Nat} {s s1 : SimState} {b : Bool}
    (he : resolveNodes s hs = (s1, b)) : EqU s s1 := by
  induction hs generalizing s with
  | nil =>
      unfold resolveNodes at he
      cases he; exact eqU_refl _
  | cons a rest ih =>
      unfold resolveNodes at he
      rcases hg : GetNode s a with ⟨t, bt⟩
      rw [hg] at he
      cases bt with
      | false =>
          cases he
          exact GetNode_eqU hg
      | true =>
          exact eqU_trans (GetNode_eqU hg) (ih he)

theorem resolveNodes_true {hs : List Nat} {s s1 : SimState}
    (he : resolveNodes s hs = (s1, true)) : s1 = s := by
  induction hs generalizing s with
  | nil =>
      unfold resolveNodes at he
      cases he; rfl
  | cons a rest ih =>
      unfold resolveNodes at he
      rcases hg : GetNode s a with ⟨t, bt⟩
      rw [hg] at he
      cases bt with
      | false => simp at he
      | true =>
          rw [ih he, GetNode_true hg]

theorem resolveDevices_eqU {hs : List Nat} {s s1 : SimState} {b : Bool}
    (he : resolveDevices s hs = (s1, b)) : EqU s s1 := by
  induction hs generalizing s with
  | nil =>
      unfold resolveDevices at he
      cases he; exact eqU_refl _
  | cons a rest ih =>
      unfold resolveDevices at he
      rcases hg : GetDevice s a with ⟨t, r⟩
      rw [hg] at he
      cases r with
      | none =>
          cases he
          exact GetDevice_eqU hg
      | some k =>
          exact eqU_trans (GetDevice_eqU hg) (ih he)

theorem resolveDevices_true {hs : List Nat} {s s1 : SimState}
    (he : resolveDevices s hs = (s1, true)) : s1 = s := by
  induction hs generalizing s with
  | nil =>
      unfold resolveDevices at he
      cases he; rfl
  | cons a rest ih =>
      unfold resolveDevices at he
      rcases hg : GetDevice s a with ⟨t, r⟩
      rw [hg] at he
      cases r with
      | none => simp at he
      | some k =>
          rw [ih he, GetDevice_some hg]

theorem stepInv_err_of_eqU {s x : SimState} (h : EqU s x) :
    StepInv s (StepResult.err x) := by
  obtain ⟨-, -, -, -, h5, h6, h7, h8, h9⟩ := h
  exact ⟨h5, h6, h7, h8, fun hf => h9.trans hf⟩

theorem stepInv_err_setError {s x : SimState} (h : EqU s x) (m : String) :
    StepInv s (StepResult.err (x.SetError m)) :=
  stepInv_err_of_eqU (eqU_trans h (eqU_SetError x m))

theorem stepInv_ok_nil (s : SimState) : StepInv s (StepResult.ok s Issued.nil) := by
  refine ⟨rfl, rfl, rfl, rfl, rfl, rfl, rfl, rfl, rfl, fun hf => hf⟩

/-- step_inv: every single ABI call satisfies `StepInv`: a successful call
issues exactly the next contiguous counter block per entity kind and
advances the counters accordingly, never writes the error slot, and never
leaves the running flag set; a failed call leaves counters and a cleared
running flag untouched. -/
theorem step_inv (op : Op) (s : SimState) : StepInv s (step op s) := by
  cases op with
  | nodes_create count outNull throws =>
      simp only [step]
      split
      · exact stepInv_err_of_eqU (eqU_refl s)
      · cases throws with
        | some m => exact stepInv_err_setError (eqU_refl s) _
        | none =>
            refine ⟨?_, ?_, rfl, rfl, rfl, rfl, rfl, rfl, rfl, fun hf => hf⟩
            · rw [List.length_range']
            · rw [List.length_range']
  | internet_install hs arrNull throws =>
      simp only [step]
      split
      · exact stepInv_err_of_eqU (eqU_refl s)
      · rcases hr : resolveNodes s hs with ⟨s1, b⟩
        cases b with
        | false => exact stepInv_err_of_eqU (resolveNodes_eqU hr)
        | true =>
            cases throws with
            | some m => exact stepInv_err_setError (resolveNodes_eqU hr) _
            | none => rw [resolveNodes_true hr]; exact stepInv_ok_nil s
  | p2p_install a b argNull throws =>
      simp only [step]
      split
      · exact stepInv_err_of_eqU (eqU_refl s)
      · rcases h1 : GetNode s a with ⟨t1, b1⟩
        rcases h2 : GetNode t1 b with ⟨t2, b2⟩
        simp only [h1, h2]
        cases b1 <;> cases b2 <;>
          simp only [Bool.and_self, Bool.and_false, Bool.false_and, Bool.true_and,
            Bool.and_true, if_true, if_false, Bool.false_eq_true, ite_false, ite_true]
        · exact stepInv_err_of_eqU (eqU_trans (GetNode_eqU h1) (GetNode_eqU h2))
        · exact stepInv_err_of_eqU (eqU_trans (GetNode_eqU h1) (GetNode_eqU h2))
        · exact stepInv_err_of_eqU (eqU_trans (GetNode_eqU h1) (GetNode_eqU h2))
        · have ht1 : t1 = s := GetNode_true h1
          subst ht1
          have ht2 : t2 = t1 := GetNode_true h2
          subst ht2
          cases throws with
          | some m => exact stepInv_err_setError (eqU_refl _) _
          | none =>
              refine ⟨rfl, rfl, rfl, rfl, rfl, rfl, rfl, rfl, rfl, fun hf => hf⟩
  | csma_install hs argNull throws =>
      simp only [step]
      split
      · exact stepInv_err_of_eqU (eqU_refl s)
      · rcases hr : resolveNodes s hs with ⟨s1, b⟩
        cases b with
        | false => exact stepInv_err_of_eqU (resolveNodes_eqU hr)
        | true =>
            have hs1 : s1 = s := resolveNodes_true hr
            subst hs1
            cases throws with
            | some m => exact stepInv_err_setError (resolveNodes_eqU hr) _
            | none =>
                refine ⟨rfl, rfl, ?_, ?_, rfl, rfl, rfl, rfl, rfl, fun hf => hf⟩
                · rw [List.length_range']
                · rw [List.length_range']
  | wifi_install_sta_ap stas ap phy argNull throws =>
      simp only [step]
      split
      · exact stepInv_err_of_eqU (eqU_refl s)
      · rcases hr : resolveNodes s stas with ⟨s1, b⟩
        cases b with
        | false => exact stepInv_err_of_eqU (resolveNodes_eqU hr)
        | true =>
            have hs1 : s1 = s := resolveNodes_true hr
            subst hs1
            rcases hg : GetNode s1 ap with ⟨s2, b2⟩
            simp only [hg]
            cases b2 with
            | false => exact stepInv_err_of_eqU (GetNode_eqU hg)
            | true =>
                have hs2 : s2 = s1 := GetNode_true hg
                subst hs2
                cases throws with
                | some m => exact stepInv_err_setError (eqU_refl _) _
                | none =>
                    refine ⟨rfl, rfl, ?_, ?_, rfl, rfl, rfl, rfl, rfl, fun hf => hf⟩
                    · rw [List.length_append, List.length_range', List.length_singleton]
                      exact (List.range'_1_concat _ _).symm
                    · rw [List.length_append, List.length_range', List.length_singleton]
                      exact Nat.add_assoc _ _ _
  | mobility_set_constant_position node throws =>
      simp only [step]
      split
      · exact stepInv_err_of_eqU (eqU_refl s)
      · rcases hg : GetNode s node with ⟨s1, b⟩
        cases b with
        | false => exact stepInv_err_of_eqU (GetNode_eqU hg)
        | true =>
            have hs1 : s1 = s := GetNode_true hg
            subst hs1
            cases throws with
            | some m => exact stepInv_err_setError (GetNode_eqU hg) _
            | none => exact stepInv_ok_nil _
  | ipv4_assign devs argNull throws =>
      simp only [step]
      split
      · exact stepInv_err_of_eqU (eqU_refl s)
      · rcases hr : resolveDevices s devs with ⟨s1, b⟩
        cases b with
        | false => exact stepInv_err_of_eqU (resolveDevices_eqU hr)
        | true =>
            have hs1 : s1 = s := resolveDevices_true hr
            subst hs1
            cases throws with
            | some m => exact stepInv_err_setError (resolveDevices_eqU hr) _
            | none => exact stepInv_ok_nil _
  | ipv4_populate_routing_tables throws =>
      simp only [step]
      cases throws with
      | some m => exact stepInv_err_setError (eqU_refl s) _
      | none => exact stepInv_ok_nil s
  | app_udpecho_server node outNull throws =>
      simp only [step]
      split
      · exact stepInv_err_of_eqU (eqU_refl s)
      · rcases hg : GetNode s node with ⟨s1, b⟩
        cases b with
        | false => exact stepInv_err_of_eqU (GetNode_eqU hg)
        | true =>
            have hs1 : s1 = s := GetNode_true hg
            subst hs1
            cases throws with
            | some m => exact stepInv_err_setError (GetNode_eqU hg) _
            | none =>
                refine ⟨rfl, rfl, rfl, rfl, rfl, rfl, rfl, rfl, rfl, fun hf => hf⟩
  | app_udpecho_client node argNull throws =>
      simp only [step]
      split
      · exact stepInv_err_of_eqU (eqU_refl s)
      · rcases hg : GetNode s node with ⟨s1, b⟩
        cases b with
        | false => exact stepInv_err_of_eqU (GetNode_eqU hg)
        | true =>
            have hs1 : s1 = s := GetNode_true hg
            subst hs1
            cases throws with
            | some m => exact stepInv_err_setError (GetNode_eqU hg) _
            | none =>
                refine ⟨rfl, rfl, rfl, rfl, rfl, rfl, rfl, rfl, rfl, fun hf => hf⟩
  | app_start app throws =>
      simp only [step]
      split
      · exact stepInv_err_of_eqU (eqU_refl s)
      · rcases hg : GetApp s app with ⟨s1, b⟩
        cases b with
        | false => exact stepInv_err_of_eqU (GetApp_eqU hg)
        | true =>
            have hs1 : s1 = s := GetApp_true hg
            subst hs1
            cases throws with
            | some m => exact stepInv_err_setError (GetApp_eqU hg) _
            | none => exact stepInv_ok_nil _
  | app_stop app throws =>
      simp only [step]
      split
      · exact stepInv_err_of_eqU (eqU_refl s)
      · rcases hg : GetApp s app with ⟨s1, b⟩
        cases b with
        | false => exact stepInv_err_of_eqU (GetApp_eqU hg)
        | true =>
            have hs1 : s1 = s := GetApp_true hg
            subst hs1
            cases throws with
            | some m => exact stepInv_err_setError (GetApp_eqU hg) _
            | none => exact stepInv_ok_nil _
  | trace_subscribe_packet_events dev onTx onRx throws =>
      simp only [step]
      split
      · exact stepInv_err_of_eqU (eqU_refl s)
      · rcases hg : GetDevice s dev with ⟨s1, r⟩
        cases r with
        | none => exact stepInv_err_of_eqU (GetDevice_eqU hg)
        | some kind =>
            have hs1 : s1 = s := GetDevice_some hg
            subst hs1
            cases honf : onTx || onRx with
            | false =>
                simp only [honf, if_false, Bool.false_eq_true, ite_false]
                exact stepInv_ok_nil _
            | true =>
                simp only [honf, if_true, ite_true]
                by_cases hk : kind = DevKind.p2p
                · simp only [hk, if_true, ite_true]
                  cases throws with
                  | some m => exact stepInv_err_setError (GetDevice_eqU hg) _
                  | none => exact stepInv_ok_nil _
                · simp only [hk, if_false, ite_false]
                  exact trivial
  | pcap_enable dev argNull throws =>
      simp only [step]
      split
      · exact stepInv_err_of_eqU (eqU_refl s)
      · rcases hg : GetDevice s dev with ⟨s1, r⟩
        cases r with
        | none => exact stepInv_err_of_eqU (GetDevice_eqU hg)
        | some kind =>
            have hs1 : s1 = s := GetDevice_some hg
            subst hs1
            cases throws with
            | some m => exact stepInv_err_setError (GetDevice_eqU hg) _
            | none => exact stepInv_ok_nil _
  | flowmon_install_all outNull throws =>
      simp only [step]
      split
      · exact stepInv_err_of_eqU (eqU_refl s)
      · cases throws with
        | some m => exact stepInv_err_setError (eqU_refl s) _
        | none =>
            refine ⟨rfl, rfl, rfl, rfl, rfl, rfl, rfl, rfl, rfl, fun hf => hf⟩
  | flowmon_collect fm outNull throws =>
      simp only [step]
      split
      · exact stepInv_err_of_eqU (eqU_refl s)
      · rcases hg : GetFlowMon s fm with ⟨s1, b⟩
        cases b with
        | false => exact stepInv_err_of_eqU (GetFlowMon_eqU hg)
        | true =>
            have hs1 : s1 = s := GetFlowMon_true hg
            subst hs1
            cases throws with
            | some m => exact stepInv_err_setError (GetFlowMon_eqU hg) _
            | none => exact stepInv_ok_nil _
  | config_set pathNull attrNull v throws =>
      simp only [step]
      split
      · exact stepInv_err_of_eqU (eqU_refl s)
      · split
        · cases throws with
          | some m => exact stepInv_err_setError (eqU_refl s) _
          | none => exact stepInv_ok_nil s
        · split
          · split
            · exact stepInv_err_of_eqU (eqU_refl s)
            · cases throws with
              | some m => exact stepInv_err_setError (eqU_refl s) _
              | none => exact stepInv_ok_nil s
          · exact stepInv_err_setError (eqU_refl s) _
  | sim_set_seed throws =>
      simp only [step]
      cases throws with
      | some m => exact stepInv_err_setError (eqU_refl s) _
      | none => exact stepInv_ok_nil s
  | sim_run throws =>
      simp only [step, sim_run]
      cases throws with
      | none =>
          refine ⟨rfl, rfl, rfl, rfl, rfl, rfl, rfl, rfl, rfl, fun hf => rfl⟩
      | some m =>
          refine ⟨rfl, rfl, rfl, rfl, fun hf => rfl⟩
  | sim_stop throws =>
      simp only [step]
      cases throws with
      | some m => exact stepInv_err_setError (eqU_refl s) _
      | none => exact stepInv_ok_nil s
  | sim_now outNull throws =>
      simp only [step]
      split
      · exact stepInv_err_of_eqU (eqU_refl s)
      · cases throws with
        | some m => exact stepInv_err_setError (eqU_refl s) _
        | none => exact stepInv_ok_nil s
  | sim_schedule cbNull throws =>
      simp only [step]
      split
      · exact stepInv_err_of_eqU (eqU_refl s)
      · cases throws with
        | some m => exact stepInv_err_setError (eqU_refl s) _
        | none => exact stepInv_ok_nil s
  | sim_is_running outNull =>
      simp only [step, sim_is_running]
      cases outNull with
      | true =>
          simp only [if_true, ite_true]
          exact stepInv_err_of_eqU (eqU_refl s)
      | false =>
          simp only [if_false, Bool.false_eq_true, ite_false]
          exact stepInv_ok_nil s

theorem issuedFresh_of_range' {l : List Nat} (h : l = List.range' 1 l.length) :
    IssuedFresh l := by
  refine ⟨h, ?_, ?_, ?_, ?_⟩
  · rw [h]; exact List.pairwise_lt_range' ..
  · rw [h]; intro hm; rw [List.mem_range'_1] at hm; omega
  · rw [h]; exact List.nodup_range' ..
  · intro hne
    cases l with
    | nil => exact absurd rfl hne
    | cons a rest =>
        simp only [List.length_cons] at h
        rw [show List.range' 1 (rest.length + 1) = 1 :: List.range' 2 rest.length from rfl] at h
        injection h with h1 h2
        rw [List.head?, h1]

theorem range'_chain {a : Nat} {l1 l2 : List Nat}
    (h1 : l1 = List.range' a l1.length)
    (h2 : l2 = List.range' (a + l1.length) l2.length) :
    l1 ++ l2 = List.range' a (l1 ++ l2).length := by
  rw [List.length_append]
  conv_lhs => rw [h1, h2]
  have h := List.range'_append a l1.length l2.length 1
  simp only [Nat.one_mul, Nat.mul_one, one_mul] at h
  rw [h, Nat.add_comm]

/-- runTrace_fresh: along any call sequence, each entity kind's issued IDs
form the contiguous block starting at the initial counter value, and the
counter ends up advanced by exactly the number of issued IDs. -/
theorem runTrace_fresh (ops : List Op) (s : SimState) :
    ((runTrace ops s).2.nodeIds
        = List.range' s.nextNodeId (runTrace ops s).2.nodeIds.length
      ∧ (runTrace ops s).1.nextNodeId
        = s.nextNodeId + (runTrace ops s).2.nodeIds.length)
  ∧ ((runTrace ops s).2.devIds
        = List.range' s.nextDeviceId (runTrace ops s).2.devIds.length
      ∧ (runTrace ops s).1.nextDeviceId
        = s.nextDeviceId + (runTrace ops s).2.devIds.length)
  ∧ ((runTrace ops s).2.appIds
        = List.range' s.nextAppId (runTrace ops s).2.appIds.length
      ∧ (runTrace ops s).1.nextAppId
        = s.nextAppId + (runTrace ops s).2.appIds.length)
  ∧ ((runTrace ops s).2.fmIds
        = List.range' s.nextFlowMonId (runTrace ops s).2.fmIds.length
      ∧ (runTrace ops s).1.nextFlowMonId
        = s.nextFlowMonId + (runTrace ops s).2.fmIds.length) := by
  induction ops generalizing s with
  | nil => simp [runTrace, Issued.nil]
  | cons op rest ih =>
      have hi := step_inv op s
      cases hstep : step op s with
      | ok s1 iss =>
          rw [hstep] at hi
          obtain ⟨e1, c1, e2, c2, e3, c3, e4, c4, -, -⟩ := hi
          obtain ⟨⟨f1, d1⟩, ⟨f2, d2⟩, ⟨f3, d3⟩, ⟨f4, d4⟩⟩ := ih s1
          simp only [runTrace, hstep, Issued.append]
          refine ⟨⟨?_, ?_⟩, ⟨?_, ?_⟩, ⟨?_, ?_⟩, ⟨?_, ?_⟩⟩
          · exact range'_chain e1 (by rw [← c1]; exact f1)
          · rw [List.length_append]; omega
          · exact range'_chain e2 (by rw [← c2]; exact f2)
          · rw [List.length_append]; omega
          · exact range'_chain e3 (by rw [← c3]; exact f3)
          · rw [List.length_append]; omega
          · exact range'_chain e4 (by rw [← c4]; exact f4)
          · rw [List.length_append]; omega
      | err s1 =>
          rw [hstep] at hi
          obtain ⟨c1, c2, c3, c4, -⟩ := hi
          obtain ⟨⟨f1, d1⟩, ⟨f2, d2⟩, ⟨f3, d3⟩, ⟨f4, d4⟩⟩ := ih s1
          simp only [runTrace, hstep]
          refine ⟨⟨?_, ?_⟩, ⟨?_, ?_⟩, ⟨?_, ?_⟩, ⟨?_, ?_⟩⟩
          · rw [← c1]; exact f1
          · omega
          · rw [← c2]; exact f2
          · omega
          · rw [← c3]; exact f3
          · omega
          · rw [← c4]; exact f4
          · omega
      | undef =>
          simp [runTrace, hstep, Issued.nil]

theorem stepPost_isRunning (op : Op) {s : SimState} (h : s.isRunning = false) :
    (stepPost op s).isRunning = false := by
  unfold stepPost
  have hi := step_inv op s
  cases hstep : step op s with
  | ok s1 iss =>
      rw [hstep] at hi
      exact hi.2.2.2.2.2.2.2.2.2 h
  | err s1 =>
      rw [hstep] at hi
      exact hi.2.2.2.2 h
  | undef => exact h

/-- C1: the claim that `flowmon_collect` writes `delaySumSec` as the sum of
per-flow `delaySum` alone and `jitterSumSec` as the sum of per-flow
`jitterSum` alone is refuted by the code. At the failing input `[c1Flow]`
(one flow: delaySum 0 s, jitterSum 1 s) line 699 folds the jitter into the
delay accumulator and the jitter accumulator is never written, so the code
yields delaySumSec 1 and jitterSumSec 0 where the specified aggregation
yields delaySumSec 0 and jitterSumSec 1. The header documents the output
fields as separate delay and jitter sums (ns3shim.h lines 325-326), so the
code contradicts its own documentation. -/
theorem C1_flowmon_jitter_folded_into_delay :
    (flowmon_collect_stats [c1Flow]).delaySumSec = 1
  ∧ (flowmon_collect_stats [c1Flow]).jitterSumSec = 0
  ∧ (spec_flow_aggregate [c1Flow]).delaySumSec = 0
  ∧ (spec_flow_aggregate [c1Flow]).jitterSumSec = 1
  ∧ flowmon_collect_stats [c1Flow] ≠ spec_flow_aggregate [c1Flow] := by
  refine ⟨?_, ?_, ?_, ?_, ?_⟩ <;>
    norm_num [flowmon_collect_stats, flowmonLoop, spec_flow_aggregate, c1Flow,
      FlowAgg.mk.injEq]

/-- C2 counterexample: simulation `s1demo` issued node handle 1 (and 2);
the distinct simulation `s2demo` also holds a registry entry under ID 1,
so presenting s1demo's handle 1 to s2demo's `internet_install` hits in
s2demo's registry, the call returns NS3_OK, and s2demo's error slot stays
empty — refuting the claim that a handle from another simulation always
misses, returns NS3_ERR and writes the slot. -/
theorem C2_cross_sim_counterexample :
    s1demo ≠ s2demo
  ∧ 1 ∈ s1demo.nodes
  ∧ step (Op.internet_install [1] false none) s2demo
      = StepResult.ok s2demo Issued.nil
  ∧ s2demo.lastError = "" := by decide

/-- C2 amended: a foreign handle is rejected exactly through a registry
miss: whenever the non-zero ID carried by the handle is absent from the
presented simulation's corresponding registry, the lookup misses, the
kind-specific message is written into that simulation's slot, and the
operation returns NS3_ERR; a foreign handle whose ID happens to also be
registered by the presented simulation is not detected as foreign. -/
theorem C2_cross_sim_lookup_miss (s : SimState) (id : Nat) (hid : id ≠ 0)
    (hn : id ∉ s.nodes) (hd : s.devices.lookup id = none)
    (ha : id ∉ s.apps) (hf : id ∉ s.flowMons) :
    GetNode s id = (s.SetError "Invalid node handle", false)
  ∧ GetDevice s id = (s.SetError "Invalid device handle", none)
  ∧ GetApp s id = (s.SetError "Invalid application handle", false)
  ∧ GetFlowMon s id = (s.SetError "Invalid flow monitor handle", false)
  ∧ step (Op.internet_install [id] false none) s
      = StepResult.err (s.SetError "Invalid node handle") := by
  have hgn : GetNode s id = (s.SetError "Invalid node handle", false) := by
    unfold GetNode
    rw [if_neg hid, if_neg hn]
  refine ⟨hgn, ?_, ?_, ?_, ?_⟩
  · unfold GetDevice
    rw [if_neg hid, hd]
  · unfold GetApp
    rw [if_neg hid, if_neg ha]
  · unfold GetFlowMon
    rw [if_neg hid, if_neg hf]
  · simp only [step]
    rw [if_neg (by simp)]
    have hres : resolveNodes s [id] = (s.SetError "Invalid node handle", false) := by
      unfold resolveNodes
      rw [hgn]
    rw [hres]

/-- C2 witness: on a fresh context every registry is empty, so the ID 1 is
absent from all four registries and each lookup misses as amended. -/
theorem C2_cross_sim_lookup_miss_witness :
    GetNode initState 1 = (initState.SetError "Invalid node handle", false)
  ∧ GetDevice initState 1 = (initState.SetError "Invalid device handle", none)
  ∧ GetApp initState 1 = (initState.SetError "Invalid application handle", false)
  ∧ GetFlowMon initState 1 = (initState.SetError "Invalid flow monitor handle", false)
  ∧ step (Op.internet_install [1] false none) initState
      = StepResult.err (initState.SetError "Invalid node handle") :=
  C2_cross_sim_lookup_miss initState 1 (by decide) (by decide) (by decide)
    (by decide) (by decide)

/-- C3 counterexample: `config_set` with a string-kind value whose payload
pointer is NULL returns NS3_ERR at line 738 without calling SetError: on a
context whose slot holds "prior failure" the slot still holds
"prior failure" afterwards (not "Invalid attribute kind" or any other
message), refuting the claim that this rejection case writes the slot. -/
theorem C3_config_set_counterexample :
    step (Op.config_set false false { kind := 3, sNull := true } none) priorState
      = StepResult.err priorState
  ∧ priorState.lastError = "prior failure" := by decide

/-- C3 amended: both rejection cases of `config_set` return NS3_ERR, but
only the out-of-range tag writes "Invalid attribute kind" into the slot;
the string-kind/NULL-payload case returns NS3_ERR with the slot untouched. -/
theorem C3_config_set_rejections (s : SimState) (v : AttrVal)
    (throws : Option String)
    (hk : v.kind ≠ 0 ∧ v.kind ≠ 1 ∧ v.kind ≠ 2 ∧ v.kind ≠ 3) :
    step (Op.config_set false false { kind := 3, sNull := true } throws) s
      = StepResult.err s
  ∧ step (Op.config_set false false v throws) s
      = StepResult.err (s.SetError "Invalid attribute kind") := by
  obtain ⟨h0, h1, h2, h3⟩ := hk
  constructor
  · rfl
  · simp only [step]
    rw [if_neg (by simp), if_neg (by simp [h0, h1, h2]), if_neg h3]

/-- C3 witness: on a fresh context, tag 9 is rejected with the slot
written and the NULL string payload is rejected with the slot untouched. -/
theorem C3_config_set_rejections_witness :
    step (Op.config_set false false { kind := 3, sNull := true } none) initState
      = StepResult.err initState
  ∧ step (Op.config_set false false { kind := 9, sNull := false } none) initState
      = StepResult.err (initState.SetError "Invalid attribute kind") :=
  C3_config_set_rejections initState { kind := 9, sNull := false } none
    ⟨by decide, by decide, by decide, by decide⟩

/-- C4: `ns3_last_error` fails exactly when the buffer is NULL or `len` is
0; otherwise it returns NS3_OK and writes the source message — the literal
"No simulation context" for a NULL simulation, the current slot contents
(possibly empty) otherwise — truncated to at most `len - 1` bytes. -/
theorem C4_ns3_last_error_contract (sim : Option SimState) (bufNull : Bool)
    (len : Nat) :
    ((ns3_last_error sim bufNull len).1 = Status.err
        ↔ (bufNull = true ∨ len = 0))
  ∧ (bufNull = false → len ≠ 0 →
      ns3_last_error sim bufNull len
        = (Status.ok, some ((lastErrorMsg sim).take (len - 1)))) := by
  constructor
  · unfold ns3_last_error
    split
    · simp_all
    · simp_all
  · intro hb hl
    unfold ns3_last_error
    rw [if_neg (by simp [hb, hl])]

/-- C4 witness: a four-byte slot message "boom" with len = 3 succeeds and
is truncated to the first two bytes. -/
theorem C4_ns3_last_error_contract_witness :
    ns3_last_error (some errState) false 3
      = (Status.ok, some ((lastErrorMsg (some errState)).take 2)) :=
  (C4_ns3_last_error_contract (some errState) false 3).2 rfl (by decide)

/-- C5: starting from a fresh simulation context, along any sequence of
calls, the IDs issued by each entity kind's registry are exactly the
contiguous block 1, 2, ..., n in issuance order: strictly increasing,
starting at 1, with ID 0 never issued and no ID ever issued twice. -/
theorem C5_ids_monotone_from_one (ops : List Op) :
    IssuedFresh (runTrace ops initState).2.nodeIds
  ∧ IssuedFresh (runTrace ops initState).2.devIds
  ∧ IssuedFresh (runTrace ops initState).2.appIds
  ∧ IssuedFresh (runTrace ops initState).2.fmIds := by
  obtain ⟨⟨h1, -⟩, ⟨h2, -⟩, ⟨h3, -⟩, ⟨h4, -⟩⟩ := runTrace_fresh ops initState
  exact ⟨issuedFresh_of_range' h1, issuedFresh_of_range' h2,
         issuedFresh_of_range' h3, issuedFresh_of_range' h4⟩

/-- C6: `sim_run` raises the running flag for the duration of the
event-loop drain and clears it before returning on both the normal and the
exception path; on a throw it writes the slot and returns NS3_ERR; no
other call leaves a cleared flag set, so outside an active run
`sim_is_running` observes 0. -/
theorem C6_running_flag (s : SimState) (throws : Option String) (m : String)
    (op : Op) (h : s.isRunning = false) :
    (sim_run throws s).2.2 = true
  ∧ (sim_run throws s).2.1.isRunning = false
  ∧ (sim_run (some m) s).1 = Status.err
  ∧ (sim_run (some m) s).2.1.lastError = "sim_run failed: " ++ m
  ∧ (stepPost op s).isRunning = false
  ∧ sim_is_running (stepPost op s) false = (Status.ok, some 0) := by
  refine ⟨?_, ?_, rfl, rfl, stepPost_isRunning op h, ?_⟩
  · cases throws <;> rfl
  · cases throws <;> rfl
  · unfold sim_is_running
    rw [if_neg (by simp), stepPost_isRunning op h]
    rfl

/-- C6 witness: from a fresh context, a throwing run returns NS3_ERR with
the flag cleared and the slot written, and after a bystander call
`sim_is_running` observes 0. -/
theorem C6_running_flag_witness :
    (sim_run (some "boom") initState).2.2 = true
  ∧ (sim_run (some "boom") initState).2.1.isRunning = false
  ∧ (sim_run (some "boom") initState).1 = Status.err
  ∧ (sim_run (some "boom") initState).2.1.lastError = "sim_run failed: " ++ "boom"
  ∧ (stepPost (Op.sim_stop none) initState).isRunning = false
  ∧ sim_is_running (stepPost (Op.sim_stop none) initState) false
      = (Status.ok, some 0) :=
  C6_running_flag initState (some "boom") "boom" (Op.sim_stop none) rfl

/-- C7: `sim_destroy(NULL)` returns NS3_OK without deallocating anything;
on a live context no exception ever propagates out of `sim_destroy` (the
result is always a returned status, never an escaping exception) and
deallocation is attempted whether or not teardown threw. -/
theorem C7_sim_destroy_null_safe (s : SimState) (t : Except String Unit)
    (e : String) :
    sim_destroy none t = Except.ok (Status.ok, false)
  ∧ (∃ r, sim_destroy (some s) t = Except.ok r ∧ r.2 = true)
  ∧ sim_destroy (some s) (Except.error e) = Except.ok (Status.err, true) := by
  refine ⟨rfl, ?_, rfl⟩
  cases t with
  | ok u => exact ⟨(Status.ok, true), rfl, rfl⟩
  | error msg => exact ⟨(Status.err, true), rfl, rfl⟩

/-- C8: a sequence of calls that all return NS3_OK leaves the last-error
slot exactly as it was: only failing calls write the slot, so the message
of the most recent failure survives any number of subsequent successes. -/
theorem C8_error_slot_frame (ops : List Op) (s sf : SimState)
    (h : runOk ops s = some sf) :
    sf.lastError = s.lastError := by
  induction ops generalizing s with
  | nil =>
      simp only [runOk, Option.some.injEq] at h
      rw [← h]
  | cons op rest ih =>
      have hi := step_inv op s
      unfold runOk at h
      cases hstep : step op s with
      | ok s1 iss =>
          rw [hstep] at hi
          simp only [hstep] at h
          exact (ih s1 h).trans hi.2.2.2.2.2.2.2.2.1
      | err s1 =>
          simp only [hstep] at h
          exact Option.noConfusion h
      | undef =>
          simp only [hstep] at h
          exact Option.noConfusion h

/-- C8 witness: two successful calls (nodes_create then internet_install)
on a context whose slot holds "prior failure" leave the slot unchanged. -/
theorem C8_error_slot_frame_witness :
    c8FinalState.lastError = priorState.lastError :=
  C8_error_slot_frame
    [Op.nodes_create 1 false none, Op.internet_install [1] false none]
    priorState c8FinalState (by decide)

/-- C9: the Wi-Fi standard switch maps the defined codes 0-5 to
802.11a, 802.11b, 802.11g, 802.11n, 802.11n, 802.11ac respectively (codes
3 and 4 both select 802.11n), an out-of-range code falls back to the
802.11n default, and the standard code has no influence on the call's
outcome, so an out-of-range code never makes `wifi_install_sta_ap` fail
on that account. -/
theorem C9_wifi_standard_selection (c : Int) (stas : List Nat) (ap : Nat)
    (argNull : Bool) (throws : Option String) (s : SimState)
    (h : c < 0 ∨ 5 < c) :
    wifiStandardOf 0 = WifiStandard.s80211a
  ∧ wifiStandardOf 1 = WifiStandard.s80211b
  ∧ wifiStandardOf 2 = WifiStandard.s80211g
  ∧ wifiStandardOf 3 = WifiStandard.s80211n
  ∧ wifiStandardOf 4 = WifiStandard.s80211n
  ∧ wifiStandardOf 5 = WifiStandard.s80211ac
  ∧ wifiStandardOf c = WifiStandard.s80211n
  ∧ step (Op.wifi_install_sta_ap stas ap c argNull throws) s
      = step (Op.wifi_install_sta_ap stas ap 3 argNull throws) s := by
  refine ⟨rfl, rfl, rfl, rfl, rfl, rfl, ?_, rfl⟩
  unfold wifiStandardOf
  rcases h with h | h <;>
    rw [if_neg (by omega), if_neg (by omega), if_neg (by omega),
        if_neg (by omega), if_neg (by omega), if_neg (by omega)]

/-- C9 witness: the out-of-range code 6 selects the 802.11n default and
yields the same call outcome as the defined code 3. -/
theorem C9_wifi_standard_selection_witness :
    wifiStandardOf 0 = WifiStandard.s80211a
  ∧ wifiStandardOf 1 = WifiStandard.s80211b
  ∧ wifiStandardOf 2 = WifiStandard.s80211g
  ∧ wifiStandardOf 3 = WifiStandard.s80211n
  ∧ wifiStandardOf 4 = WifiStandard.s80211n
  ∧ wifiStandardOf 5 = WifiStandard.s80211ac
  ∧ wifiStandardOf 6 = WifiStandard.s80211n
  ∧ step (Op.wifi_install_sta_ap [1] 2 6 false none) initState
      = step (Op.wifi_install_sta_ap [1] 2 3 false none) initState :=
  C9_wifi_standard_selection 6 [1] 2 false none initState (Or.inr (by norm_num))

/-- C10: for every registered device that is not a point-to-point device,
`trace_subscribe_packet_events` with a non-null onTx or onRx reaches the
dereference of the null `GetObject<PointToPointNetDevice>` result
(lines 616 and 626): the outcome is undefined behaviour
(`StepResult.undef`), not the NS3_ERR that the `catch (std::exception)`
handler would produce, so the catch does not make this branch safe. -/
theorem C10_trace_subscribe_null_deref (s : SimState) (dev : Nat)
    (k : DevKind) (onTx onRx : Bool) (throws : Option String)
    (hdev : dev ≠ 0) (hk : s.devices.lookup dev = some k)
    (hkind : k ≠ DevKind.p2p) (hcb : onTx = true ∨ onRx = true) :
    step (Op.trace_subscribe_packet_events dev onTx onRx throws) s
      = StepResult.undef := by
  have hd : GetDevice s dev = (s, some k) := by
    unfold GetDevice
    rw [if_neg hdev, hk]
  have hb : (onTx || onRx) = true := by
    rcases hcb with h | h <;> simp [h]
  simp only [step]
  rw [if_neg hdev, hd]
  simp only [hb, if_true, ite_true]
  rw [if_neg hkind]

/-- C10 witness: the CSMA device registered under ID 1 by `csma_install`
reaches the null dereference when a TX callback is supplied. -/
theorem C10_trace_subscribe_null_deref_witness :
    step (Op.trace_subscribe_packet_events 1 true false none) csmaState
      = StepResult.undef :=
  C10_trace_subscribe_null_deref csmaState 1 DevKind.csma true false none
    (by decide) (by decide) (by decide) (Or.inl rfl)
